import Mathlib

/-!
Verification of the SocketRobot control core against its design document.

The development embeds, in Lean, the state and the decision code of the two
controller variants found in the repository:

* the raw-socket server (`src/Server/ServerSocket.py`, identical arbitration
  logic in `src/Server/server.py`): four integer direction flags
  (`forwardvar`, `backwardvar`, `leftvar`, `rightvar`), a previous-command
  integer `previousstate` (0..4 meaning none/forward/backward/left/right),
  an `exit_program` flag, the `robotThread.run` if/elif arbitration chain and
  the `socketThread.run` text-message dispatch;

* the FastAPI webapp (`src/webapp/main.py`): the `ControlState` booleans,
  `apply_state` conflict resolution, the `MockRobotController` last-command
  log, and the `control_ws` websocket message handler.

Machine integers only ever hold 0 or 1 here, so flags are embedded as `Bool`
and `previousstate` as the five-valued enumeration `Cmd`.
-/

namespace SocketRobot

/-- `previousstate` in `ServerSocket.py` line 8: `0 1 2 3 4` standing for
none/forward/backward/left/right. -/
inductive Cmd
  | none
  | forward
  | backward
  | left
  | right
deriving DecidableEq, Repr, Fintype

/-- The four direction flags `forwardvar`, `backwardvar`, `leftvar`,
`rightvar` (`ServerSocket.py` lines 9-12); in the webapp the fields of
`ControlState` (`main.py` lines 120-133). The integers only ever hold 0 or 1,
embedded as `Bool`. -/
structure Flags where
  forward : Bool
  backward : Bool
  left : Bool
  right : Bool
deriving DecidableEq, Repr, Fintype

/-- An invocation of one of the five Actuator primitives.  In
`ServerSocket.py`, `stop` is the `clear()` call (all pins low); in
`main.py` it is `controller.stop()`. -/
inductive Call
  | stop
  | forward
  | backward
  | left
  | right
deriving DecidableEq, Repr, Fintype

/-- The motion command a given Actuator call instructs: `clear()`/`stop()`
leaves no command active (`Cmd.none`), the four direction calls instruct the
matching command. -/
def callCmd : Call → Cmd
  | Call.stop => Cmd.none
  | Call.forward => Cmd.forward
  | Call.backward => Cmd.backward
  | Call.left => Cmd.left
  | Call.right => Cmd.right

/-- One pass of the `robotThread.run` if/elif arbitration chain
(`ServerSocket.py` lines 86-135, identically `server.py` lines 78-127),
excluding the `exit_program` check that precedes it (modelled in `sysStep`).
Returns the Actuator call made on this pass, if any, and the new
`previousstate`.  Branches appear in source order; the final `else` of the
chain is the implicit "no rule matched" case: no call, `previousstate`
unchanged. -/
def robotTick (f : Flags) (prev : Cmd) : Option Call × Cmd :=
  if f.forward = false ∧ f.backward = false ∧ f.left = false ∧ f.right = false ∧ prev ≠ Cmd.none then
    (some Call.stop, Cmd.none)
  else if f.forward = true ∧ f.backward = true ∧ f.left = true ∧ f.right = true ∧ prev ≠ Cmd.none then
    (some Call.stop, Cmd.none)
  else if f.forward = false ∧ f.backward = false ∧ f.left = true ∧ f.right = true ∧ prev ≠ Cmd.none then
    (some Call.stop, Cmd.none)
  else if f.forward = true ∧ f.backward = true ∧ f.left = false ∧ f.right = false ∧ prev ≠ Cmd.none then
    (some Call.stop, Cmd.none)
  else if f.forward = true ∧ f.backward = false ∧ f.left = false ∧ f.right = false ∧ prev ≠ Cmd.forward then
    (some Call.forward, Cmd.forward)
  else if f.forward = true ∧ f.backward = false ∧ f.left = true ∧ f.right = false ∧ prev = Cmd.left then
    (some Call.forward, Cmd.forward)
  else if f.forward = true ∧ f.backward = false ∧ f.left = false ∧ f.right = true ∧ prev = Cmd.right then
    (some Call.forward, Cmd.forward)
  else if f.forward = true ∧ f.backward = false ∧ f.left = true ∧ f.right = true ∧ prev ≠ Cmd.forward then
    (some Call.forward, Cmd.forward)
  else if f.forward = false ∧ f.backward = true ∧ f.left = false ∧ f.right = false ∧ prev ≠ Cmd.backward then
    (some Call.backward, Cmd.backward)
  else if f.forward = false ∧ f.backward = true ∧ f.left = true ∧ f.right = false ∧ prev = Cmd.left then
    (some Call.backward, Cmd.backward)
  else if f.forward = false ∧ f.backward = true ∧ f.left = false ∧ f.right = true ∧ prev = Cmd.right then
    (some Call.backward, Cmd.backward)
  else if f.forward = false ∧ f.backward = true ∧ f.left = true ∧ f.right = true ∧ prev ≠ Cmd.backward then
    (some Call.backward, Cmd.backward)
  else if f.forward = false ∧ f.backward = false ∧ f.left = true ∧ f.right = false ∧ prev ≠ Cmd.left then
    (some Call.left, Cmd.left)
  else if f.forward = true ∧ f.backward = true ∧ f.left = true ∧ f.right = false ∧ prev ≠ Cmd.left then
    (some Call.left, Cmd.left)
  else if f.forward = false ∧ f.backward = false ∧ f.left = false ∧ f.right = true ∧ prev ≠ Cmd.right then
    (some Call.right, Cmd.right)
  else if f.forward = true ∧ f.backward = true ∧ f.left = false ∧ f.right = true ∧ prev ≠ Cmd.right then
    (some Call.right, Cmd.right)
  else
    (Option.none, prev)

/-- Modelled from the spec: one row of the priority transition table of
spec section 4.1 — required flag values, a predicate on the previous
command, the Actuator action and the new previous command. -/
structure Rule where
  f : Bool
  b : Bool
  l : Bool
  r : Bool
  prevCond : Cmd → Bool
  action : Call
  newPrev : Cmd

/-- Modelled from the spec: the 16 rows of the priority transition table of
spec section 4.1, in order. -/
def specRules : List Rule :=
  [ ⟨false, false, false, false, fun p => p != Cmd.none, Call.stop, Cmd.none⟩,
    ⟨true, true, true, true, fun p => p != Cmd.none, Call.stop, Cmd.none⟩,
    ⟨false, false, true, true, fun p => p != Cmd.none, Call.stop, Cmd.none⟩,
    ⟨true, true, false, false, fun p => p != Cmd.none, Call.stop, Cmd.none⟩,
    ⟨true, false, false, false, fun p => p != Cmd.forward, Call.forward, Cmd.forward⟩,
    ⟨true, false, true, false, fun p => p == Cmd.left, Call.forward, Cmd.forward⟩,
    ⟨true, false, false, true, fun p => p == Cmd.right, Call.forward, Cmd.forward⟩,
    ⟨true, false, true, true, fun p => p != Cmd.forward, Call.forward, Cmd.forward⟩,
    ⟨false, true, false, false, fun p => p != Cmd.backward, Call.backward, Cmd.backward⟩,
    ⟨false, true, true, false, fun p => p == Cmd.left, Call.backward, Cmd.backward⟩,
    ⟨false, true, false, true, fun p => p == Cmd.right, Call.backward, Cmd.backward⟩,
    ⟨false, true, true, true, fun p => p != Cmd.backward, Call.backward, Cmd.backward⟩,
    ⟨false, false, true, false, fun p => p != Cmd.left, Call.left, Cmd.left⟩,
    ⟨true, true, true, false, fun p => p != Cmd.left, Call.left, Cmd.left⟩,
    ⟨false, false, false, true, fun p => p != Cmd.right, Call.right, Cmd.right⟩,
    ⟨true, true, false, true, fun p => p != Cmd.right, Call.right, Cmd.right⟩ ]

/-- Modelled from the spec: evaluating the priority table of spec section
4.1, first matching rule wins; on no match, no action and the previous
command unchanged. -/
def tableTick (fl : Flags) (prev : Cmd) : Option Call × Cmd :=
  match specRules.find? (fun ru =>
      (ru.f == fl.forward) && (ru.b == fl.backward) && (ru.l == fl.left)
        && (ru.r == fl.right) && ru.prevCond prev) with
  | some ru => (some ru.action, ru.newPrev)
  | Option.none => (Option.none, prev)

/-! ### The webapp controller (`src/webapp/main.py`) -/

/-- `apply_state` (`main.py` lines 141-152): which controller method one call
invokes, given the current `ControlState` flags.  Exactly one of the five
methods is invoked per call; the final `else` invokes `controller.stop()`. -/
def apply_state (s : Flags) : Call :=
  if s.forward && !s.backward then Call.forward
  else if s.backward && !s.forward then Call.backward
  else if s.left && !s.right && !s.forward && !s.backward then Call.left
  else if s.right && !s.left && !s.forward && !s.backward then Call.right
  else Call.stop

/-- The `MockRobotController` state (`main.py` lines 30-37): `_last_cmd`,
initialised to the stop command. -/
structure MockState where
  last : Call
deriving DecidableEq, Repr

/-- `MockRobotController._log` (`main.py` lines 34-37): performs its effect
(the print) and records the command only when the command differs from
`_last_cmd`; returns the new mock state and whether the effect was emitted. -/
def mockLog (m : MockState) (c : Call) : MockState × Bool :=
  if c ≠ m.last then (⟨c⟩, true) else (m, false)

/-- What `json.loads` on a websocket text frame yields, as far as
`control_ws` (`main.py` lines 155-201) inspects it: the text may fail to
parse (`JSONDecodeError`), parse to a JSON value that is not an object (so
`data.get` raises `AttributeError`), or parse to an object of which the
handler reads the `type`, `key`, `action` and `cmd` fields, each modelled by
its string form when present. -/
inductive Payload
  | notJson (raw : String)
  | jsonNonObject
  | jsonObject (ty : Option String) (key : Option String)
      (act : Option String) (cmd : Option String)

/-- A frame the server sends on the websocket: the connect-time hello, the
per-message state acknowledgement, or the error reply (`main.py` lines 159,
183, 198, 201). -/
inductive Reply
  | hello (st : Flags)
  | stateAck (st : Flags)
  | error (msg : String)
deriving DecidableEq, Repr

/-- The outcome of `control_ws` on one received frame: a reply sent back,
the flag state after the message and the `apply_state` controller call made,
if any; or an uncaught exception that ends the handler (the flags at that
moment are recorded). -/
inductive HandlerResult
  | reply (r : Reply) (flags : Flags) (call : Option Call)
  | crash (flags : Flags)
deriving DecidableEq, Repr

/-- Python's `str.lower` over the ASCII protocol vocabulary, as `control_ws`
applies it to the `key` and `cmd` fields (`main.py` lines 171 and 186). -/
def strLower (s : String) : String := ⟨s.data.map Char.toLower⟩

/-- The flag write of the `key` branch (`main.py` lines 170-181): the
lowercased `key` field selects the flag, `action == "down"` gives the value;
an unknown key changes nothing. -/
def keyUpdate (f : Flags) (key : String) (isDown : Bool) : Flags :=
  if key = "w" then { f with forward := isDown }
  else if key = "s" then { f with backward := isDown }
  else if key = "a" then { f with left := isDown }
  else if key = "d" then { f with right := isDown }
  else f

/-- The flag write of the `command` branch (`main.py` lines 185-196): a known
`cmd` overwrites all four flags; an unknown one changes nothing. -/
def cmdUpdate (f : Flags) (cmd : String) : Flags :=
  if cmd = "forward" then ⟨true, false, false, false⟩
  else if cmd = "backward" then ⟨false, true, false, false⟩
  else if cmd = "left" then ⟨false, false, true, false⟩
  else if cmd = "right" then ⟨false, false, false, true⟩
  else if cmd = "stop" then ⟨false, false, false, false⟩
  else f

/-- The dispatch of `control_ws` on a parsed JSON object (`main.py` lines
168-201): the `key` and `command` branches update the flags, call
`apply_state` and acknowledge with the state; any other `type` gets the
error reply and no controller call. -/
def handleObject (f : Flags) (ty key act cmd : Option String) : HandlerResult :=
  if ty = some "key" then
    let f2 := keyUpdate f (strLower (key.getD "")) (act = some "down")
    HandlerResult.reply (Reply.stateAck f2) f2 (some (apply_state f2))
  else if ty = some "command" then
    let f2 := cmdUpdate f (strLower (cmd.getD ""))
    HandlerResult.reply (Reply.stateAck f2) f2 (some (apply_state f2))
  else
    HandlerResult.reply (Reply.error "unknown message") f Option.none

/-- One iteration of the `control_ws` receive loop (`main.py` lines 161-201)
on the current flags and one frame: text that is not JSON is coerced to
`{"type": "command", "cmd": raw}` (lines 164-166); a JSON value that is not
an object makes `data.get("type")` raise `AttributeError`, which no handler
catches (`WebSocketDisconnect` is the only except clause), ending the
handler; a JSON object is dispatched on its `type`. -/
def control_ws_step (f : Flags) (p : Payload) : HandlerResult :=
  match p with
  | Payload.notJson raw => handleObject f (some "command") Option.none Option.none (some raw)
  | Payload.jsonNonObject => HandlerResult.crash f
  | Payload.jsonObject ty key act cmd => handleObject f ty key act cmd

/-- A whole websocket session after the accept (`main.py` lines 158-201):
the replies sent for a list of received frames and the final flags.  A crash
ends the reply stream. -/
def wsHandle : Flags → List Payload → List Reply × Flags
  | f, [] => ([], f)
  | f, p :: ps =>
    match control_ws_step f p with
    | HandlerResult.reply r f2 _ =>
      let rest := wsHandle f2 ps
      (r :: rest.1, rest.2)
    | HandlerResult.crash f2 => ([], f2)

/-- A websocket connection (`main.py` lines 157-201): on accept the server
first sends the hello frame carrying the current state (line 159), then
services the received frames. -/
def wsConnect (f : Flags) (ps : List Payload) : List Reply × Flags :=
  let rest := wsHandle f ps
  (Reply.hello f :: rest.1, rest.2)

/-- The `WebSocketDisconnect` handler of `control_ws` (`main.py` lines
202-205): all four flags are set to false and `apply_state` runs once more.
Returns the flags after the handler and the controller call it makes. -/
def ws_disconnect (_f : Flags) : Flags × Call :=
  let f2 : Flags := ⟨false, false, false, false⟩
  (f2, apply_state f2)

/-! ### The raw-socket server as a transition system (`src/Server/ServerSocket.py`) -/

/-- The process-wide mutable state of `ServerSocket.py` (lines 8-13): the
four direction flags, `previousstate`, `exit_program`, and whether the
`robotThread.run` loop is still running (it leaves its loop by `break` after
`cleanup()`, lines 82-85). -/
structure SysState where
  flags : Flags
  prev : Cmd
  exitProgram : Bool
  robotAlive : Bool
deriving DecidableEq, Repr

/-- The `socketThread.run` dispatch on one decoded message
(`ServerSocket.py` lines 174-202): `exit` sets `exit_program`, the eight key
tokens each write one flag, anything else changes nothing.  `previousstate`
and the robot loop are never touched here. -/
def socketMsg (s : SysState) (m : String) : SysState :=
  if m = "exit" then { s with exitProgram := true }
  else if m = "'w' press" then { s with flags := { s.flags with forward := true } }
  else if m = "'w' release" then { s with flags := { s.flags with forward := false } }
  else if m = "'a' press" then { s with flags := { s.flags with left := true } }
  else if m = "'a' release" then { s with flags := { s.flags with left := false } }
  else if m = "'s' press" then { s with flags := { s.flags with backward := true } }
  else if m = "'s' release" then { s with flags := { s.flags with backward := false } }
  else if m = "'d' press" then { s with flags := { s.flags with right := true } }
  else if m = "'d' release" then { s with flags := { s.flags with right := false } }
  else s

/-- An atomic step of the two-thread system: a network message handled by
`socketThread.run`, or one iteration of the `robotThread.run` loop. -/
inductive Event
  | tick
  | net (m : String)

/-- One step of the system, returning the new state and the Actuator call
made, if any.  A `tick` is one iteration of `robotThread.run`
(`ServerSocket.py` lines 81-135): nothing once the loop has been left; if
`exit_program` is set, `cleanup()` — that is `clear()` and
`previousstate = 0` — and `break`; else the arbitration chain `robotTick`.
A `net` message is handled by `socketMsg` and makes no Actuator call. -/
def sysStep (s : SysState) : Event → SysState × Option Call
  | Event.net m => (socketMsg s m, Option.none)
  | Event.tick =>
    if s.robotAlive = false then (s, Option.none)
    else if s.exitProgram = true then
      ({ s with prev := Cmd.none, robotAlive := false }, some Call.stop)
    else
      let t := robotTick s.flags s.prev
      ({ s with prev := t.2 }, t.1)

/-- Running the system over a list of events: the final state and the list
of Actuator calls made, in order. -/
def sysRun (s : SysState) : List Event → SysState × List Call
  | [] => (s, [])
  | e :: es =>
    let first := sysStep s e
    let rest := sysRun first.1 es
    (rest.1, first.2.toList ++ rest.2)

/-- The `except` path of `socketThread.run` after a connection drop
(`ServerSocket.py` lines 203-208): it only inspects `exit_program` to decide
whether to leave the accept loop; neither branch writes any flag, so the
state is returned unchanged and the next accepted connection starts from
it. -/
def serverDrop (s : SysState) : SysState := s

/-- The number of Actuator calls one arbitration pass makes (0 or 1). -/
def callsOf : Option Call → Nat
  | some _ => 1
  | Option.none => 0

/-- The Actuator calls of two consecutive arbitration passes on the same
flags, the second starting from the previous command the first left. -/
def twoTickCalls (f : Flags) (p : Cmd) : Nat :=
  callsOf (robotTick f p).1 + callsOf (robotTick f (robotTick f p).2).1

/-! ### Helper lemmas on the socket server transition system -/

theorem socketMsg_robotAlive (s : SysState) (m : String) :
    (socketMsg s m).robotAlive = s.robotAlive := by
  unfold socketMsg; split_ifs <;> rfl

theorem socketMsg_prev (s : SysState) (m : String) :
    (socketMsg s m).prev = s.prev := by
  unfold socketMsg; split_ifs <;> rfl

theorem socketMsg_exitProgram_mono (s : SysState) (m : String)
    (h : s.exitProgram = true) : (socketMsg s m).exitProgram = true := by
  unfold socketMsg; split_ifs <;> first | rfl | exact h

/-- Once `robotThread.run` has left its loop, no event makes an Actuator
call, and neither the previous command nor the loop state changes. -/
theorem sysRun_dead (evs : List Event) : ∀ (s : SysState), s.robotAlive = false →
    (sysRun s evs).2 = [] ∧ (sysRun s evs).1.prev = s.prev
      ∧ (sysRun s evs).1.robotAlive = false := by
  induction evs with
  | nil => intro s h; exact ⟨rfl, rfl, h⟩
  | cons e es ih =>
    intro s h
    cases e with
    | tick =>
      have hstep : sysStep s Event.tick = (s, Option.none) := by
        unfold sysStep; rw [h]; simp
      have hr := ih s h
      simp only [sysRun, hstep, Option.toList, List.nil_append]
      exact hr
    | net m =>
      have halive : (socketMsg s m).robotAlive = false := by
        rw [socketMsg_robotAlive]; exact h
      have hr := ih (socketMsg s m) halive
      simp only [sysRun, sysStep, Option.toList, List.nil_append]
      exact ⟨hr.1, by rw [hr.2.1, socketMsg_prev], hr.2.2⟩

/-- With `exit_program` set and the robot loop still running, any run of
further network messages followed by a robot-loop iteration and anything
else makes exactly the one `clear()` of `cleanup()`, leaves
`previousstate = 0` and the loop terminated. -/
theorem sysRun_exit_pending : ∀ (msgs : List String) (s : SysState) (evs : List Event),
    s.exitProgram = true → s.robotAlive = true →
    (sysRun s (List.map Event.net msgs ++ Event.tick :: evs)).2 = [Call.stop]
      ∧ (sysRun s (List.map Event.net msgs ++ Event.tick :: evs)).1.prev = Cmd.none
      ∧ (sysRun s (List.map Event.net msgs ++ Event.tick :: evs)).1.robotAlive = false := by
  intro msgs
  induction msgs with
  | nil =>
    intro s evs hexit halive
    have hstep : sysStep s Event.tick
        = ({ s with prev := Cmd.none, robotAlive := false }, some Call.stop) := by
      unfold sysStep; rw [halive, hexit]; simp
    have hdead := sysRun_dead evs { s with prev := Cmd.none, robotAlive := false } rfl
    simp only [List.map_nil, List.nil_append, sysRun, hstep, Option.toList]
    exact ⟨by rw [hdead.1]; rfl, hdead.2.1, hdead.2.2⟩
  | cons m ms ih =>
    intro s evs hexit halive
    have hexit2 := socketMsg_exitProgram_mono s m hexit
    have halive2 : (socketMsg s m).robotAlive = true := by
      rw [socketMsg_robotAlive]; exact halive
    have hr := ih (socketMsg s m) evs hexit2 halive2
    simp only [List.map_cons, List.cons_append, sysRun, sysStep, Option.toList,
      List.nil_append]
    exact hr

/-! ### The claims -/

/-- C1: for every one of the 16 flag combinations and every one of the 5
previous-command values, one pass of the `robotThread.run` arbitration chain
chooses exactly the action of the 16-row priority transition table of spec
section 4.1 (first matching rule wins, Actuator call made and new previous
command recorded on a match), and when no rule matches it makes no Actuator
call and leaves the previous command unchanged. -/
theorem C1_tick_matches_table : ∀ (f : Flags) (p : Cmd), robotTick f p = tableTick f p := by
  decide

/-- C2 (amended): in the socket server's arbitration chain every Actuator
call is made with a command different from the recorded previous command —
every rule carries a precondition excluding the matching previous-command
value (the unconditional `cleanup()` stop of the shutdown path is the only
exception, modelled separately in `sysStep`).  The claim fails for the
webapp's `apply_state`, which carries no previous-command precondition; see
the counterexample. -/
theorem C2_no_redundant_reissue (f : Flags) (p : Cmd) (c : Call) (p2 : Cmd)
    (h : robotTick f p = (some c, p2)) : callCmd c ≠ p := by
  revert h
  revert f p c p2
  decide

theorem C2_no_redundant_reissue_witness :
    robotTick ⟨true, false, false, false⟩ Cmd.none = (some Call.forward, Cmd.forward)
      ∧ callCmd Call.forward ≠ Cmd.none :=
  ⟨by decide,
    C2_no_redundant_reissue ⟨true, false, false, false⟩ Cmd.none Call.forward Cmd.forward
      (by decide)⟩

/-- C2 fails as stated for the webapp: a repeated key-down frame makes
`apply_state` invoke `controller.forward()` although the mock controller's
recorded `_last_cmd` is already the forward command — the redundant
invocation happens and is only muted inside `MockRobotController._log`. -/
theorem C2_counterexample :
    control_ws_step ⟨false, false, false, false⟩
        (Payload.jsonObject (some "key") (some "w") (some "down") Option.none)
      = HandlerResult.reply (Reply.stateAck ⟨true, false, false, false⟩)
          ⟨true, false, false, false⟩ (some Call.forward)
    ∧ (mockLog ⟨Call.stop⟩ Call.forward).1 = ⟨Call.forward⟩
    ∧ control_ws_step ⟨true, false, false, false⟩
        (Payload.jsonObject (some "key") (some "w") (some "down") Option.none)
      = HandlerResult.reply (Reply.stateAck ⟨true, false, false, false⟩)
          ⟨true, false, false, false⟩ (some Call.forward)
    ∧ callCmd Call.forward = callCmd (MockState.mk Call.forward).last := by
  refine ⟨rfl, by decide, rfl, rfl⟩

/-- C3 (amended): a second arbitration pass with the same flags never makes
an Actuator call, so two consecutive passes make at most one call — exactly
the first pass's call when a rule matched, and none at all when no rule
matched (the claim's "exactly one" fails in the no-match case). -/
theorem C3_second_tick_silent : ∀ (f : Flags) (p : Cmd),
    (robotTick f (robotTick f p).2).1 = Option.none
      ∧ twoTickCalls f p = callsOf (robotTick f p).1
      ∧ twoTickCalls f p ≤ 1 := by
  decide

/-- C3 fails as stated: with no flag held and previous command none, two
consecutive passes make zero Actuator calls, not exactly one. -/
theorem C3_counterexample :
    twoTickCalls ⟨false, false, false, false⟩ Cmd.none ≠ 1 := by decide

/-- C4: from flags forward-only, the text message for an 'a' press sets
exactly the left flag, and the next arbitration pass on the resulting flags
with previous command Forward makes no Actuator call and leaves the previous
command Forward. -/
theorem C4_a_press_keeps_forward :
    (socketMsg ⟨⟨true, false, false, false⟩, Cmd.forward, false, true⟩ "'a' press").flags
        = ⟨true, false, true, false⟩
      ∧ robotTick ⟨true, false, true, false⟩ Cmd.forward = (Option.none, Cmd.forward) := by
  refine ⟨by decide, by decide⟩

/-- C5: once the exit message has been received, whatever network messages a
later connection delivers, the robot loop's next iteration makes exactly one
stop call, records previous command none and terminates; no Actuator call
ever occurs afterwards. -/
theorem C5_exit_terminal (s : SysState) (msgs : List String) (evs : List Event)
    (h : s.robotAlive = true) :
    (sysRun (socketMsg s "exit") (List.map Event.net msgs ++ Event.tick :: evs)).2
        = [Call.stop]
      ∧ (sysRun (socketMsg s "exit") (List.map Event.net msgs ++ Event.tick :: evs)).1.prev
        = Cmd.none
      ∧ (sysRun (socketMsg s "exit") (List.map Event.net msgs ++ Event.tick :: evs)).1.robotAlive
        = false := by
  have hexit : (socketMsg s "exit").exitProgram = true := by
    unfold socketMsg; simp
  have halive : (socketMsg s "exit").robotAlive = true := by
    rw [socketMsg_robotAlive]; exact h
  exact sysRun_exit_pending msgs (socketMsg s "exit") evs hexit halive

theorem C5_exit_terminal_witness :
    (SysState.mk ⟨false, false, false, false⟩ Cmd.forward false true).robotAlive = true
    ∧ ((sysRun (socketMsg (SysState.mk ⟨false, false, false, false⟩ Cmd.forward false true) "exit")
          (List.map Event.net ["'w' press"] ++ Event.tick :: [Event.tick, Event.net "'a' press"])).2
        = [Call.stop]
      ∧ (sysRun (socketMsg (SysState.mk ⟨false, false, false, false⟩ Cmd.forward false true) "exit")
          (List.map Event.net ["'w' press"] ++ Event.tick :: [Event.tick, Event.net "'a' press"])).1.prev
        = Cmd.none
      ∧ (sysRun (socketMsg (SysState.mk ⟨false, false, false, false⟩ Cmd.forward false true) "exit")
          (List.map Event.net ["'w' press"] ++ Event.tick :: [Event.tick, Event.net "'a' press"])).1.robotAlive
        = false) :=
  ⟨rfl,
    C5_exit_terminal (SysState.mk ⟨false, false, false, false⟩ Cmd.forward false true)
      ["'w' press"] [Event.tick, Event.net "'a' press"] rfl⟩

/-- C6 (amended): the first frame after connect is the hello frame with the
current state, and a JSON object whose type is neither "key" nor "command"
receives exactly the error reply, with flags unchanged and no controller
call; but text that is not JSON is coerced to a command message and answered
with a state acknowledgement — an unrecognized non-JSON input does receive a
state acknowledgement, contrary to the claim. -/
theorem C6_reply_discipline (f : Flags) (ps : List Payload)
    (ty k a c : Option String) (raw : String)
    (h1 : ty ≠ some "key") (h2 : ty ≠ some "command") :
    (wsConnect f ps).1.head? = some (Reply.hello f)
    ∧ control_ws_step f (Payload.jsonObject ty k a c)
        = HandlerResult.reply (Reply.error "unknown message") f Option.none
    ∧ control_ws_step f (Payload.notJson raw)
        = HandlerResult.reply (Reply.stateAck (cmdUpdate f (strLower raw)))
            (cmdUpdate f (strLower raw)) (some (apply_state (cmdUpdate f (strLower raw)))) := by
  refine ⟨rfl, ?_, ?_⟩
  · show handleObject f ty k a c = _
    unfold handleObject
    rw [if_neg h1, if_neg h2]
  · rfl

theorem C6_reply_discipline_witness :
    (some "ping" : Option String) ≠ some "key"
    ∧ (some "ping" : Option String) ≠ some "command"
    ∧ ((wsConnect ⟨false, false, false, false⟩ []).1.head?
        = some (Reply.hello ⟨false, false, false, false⟩)
      ∧ control_ws_step ⟨false, false, false, false⟩
          (Payload.jsonObject (some "ping") Option.none Option.none Option.none)
        = HandlerResult.reply (Reply.error "unknown message")
            ⟨false, false, false, false⟩ Option.none
      ∧ control_ws_step ⟨false, false, false, false⟩ (Payload.notJson "hi")
        = HandlerResult.reply
            (Reply.stateAck (cmdUpdate ⟨false, false, false, false⟩ (strLower "hi")))
            (cmdUpdate ⟨false, false, false, false⟩ (strLower "hi"))
            (some (apply_state (cmdUpdate ⟨false, false, false, false⟩ (strLower "hi"))))) :=
  ⟨by decide, by decide,
    C6_reply_discipline ⟨false, false, false, false⟩ [] (some "ping")
      Option.none Option.none Option.none "hi" (by decide) (by decide)⟩

/-- C6 fails as stated: the unrecognized non-JSON text "not json" is answered
with a state acknowledgement, not with the error reply. -/
theorem C6_counterexample :
    control_ws_step ⟨false, false, false, false⟩ (Payload.notJson "not json")
      = HandlerResult.reply (Reply.stateAck ⟨false, false, false, false⟩)
          ⟨false, false, false, false⟩ (some Call.stop)
    ∧ control_ws_step ⟨false, false, false, false⟩ (Payload.notJson "not json")
      ≠ HandlerResult.reply (Reply.error "unknown message")
          ⟨false, false, false, false⟩ Option.none := by
  refine ⟨rfl, by decide⟩

/-- C7 (amended): non-JSON text whose lowercased form is not one of the five
command words leaves the flags unchanged and keeps the connection open (a
state acknowledgement is sent, no crash); but non-JSON text naming a command
word overwrites the flags (see the counterexample), and a payload that is
valid JSON without being a JSON object ends the handler with an uncaught
exception — the flags unchanged, the connection lost. -/
theorem C7_malformed_effect (f : Flags) (raw : String)
    (h1 : strLower raw ≠ "forward") (h2 : strLower raw ≠ "backward")
    (h3 : strLower raw ≠ "left") (h4 : strLower raw ≠ "right")
    (h5 : strLower raw ≠ "stop") :
    control_ws_step f (Payload.notJson raw)
        = HandlerResult.reply (Reply.stateAck f) f (some (apply_state f))
    ∧ control_ws_step f Payload.jsonNonObject = HandlerResult.crash f := by
  constructor
  · show handleObject f (some "command") Option.none Option.none (some raw) = _
    unfold handleObject
    rw [if_neg (by decide : ¬ (some "command" : Option String) = some "key"),
      if_pos rfl]
    show HandlerResult.reply (Reply.stateAck (cmdUpdate f (strLower raw)))
        (cmdUpdate f (strLower raw)) (some (apply_state (cmdUpdate f (strLower raw)))) = _
    unfold cmdUpdate
    rw [if_neg h1, if_neg h2, if_neg h3, if_neg h4, if_neg h5]
  · rfl

theorem C7_malformed_effect_witness :
    strLower "not json" ≠ "forward" ∧ strLower "not json" ≠ "backward"
    ∧ strLower "not json" ≠ "left" ∧ strLower "not json" ≠ "right"
    ∧ strLower "not json" ≠ "stop"
    ∧ (control_ws_step ⟨false, false, true, false⟩ (Payload.notJson "not json")
        = HandlerResult.reply (Reply.stateAck ⟨false, false, true, false⟩)
            ⟨false, false, true, false⟩
            (some (apply_state ⟨false, false, true, false⟩))
      ∧ control_ws_step ⟨false, false, true, false⟩ Payload.jsonNonObject
        = HandlerResult.crash ⟨false, false, true, false⟩) :=
  ⟨by decide, by decide, by decide, by decide, by decide,
    C7_malformed_effect ⟨false, false, true, false⟩ "not json"
      (by decide) (by decide) (by decide) (by decide) (by decide)⟩

/-- C7 fails as stated: the non-JSON payload "forward" is malformed for the
structured transport, yet processing it overwrites the flags (all false
before, forward-only after) instead of leaving them unchanged. -/
theorem C7_counterexample :
    control_ws_step ⟨false, false, false, false⟩ (Payload.notJson "forward")
      = HandlerResult.reply (Reply.stateAck ⟨true, false, false, false⟩)
          ⟨true, false, false, false⟩ (some Call.forward)
    ∧ (⟨true, false, false, false⟩ : Flags) ≠ ⟨false, false, false, false⟩ := by
  refine ⟨rfl, by decide⟩

/-- C8 (amended): the text-protocol server's connection-drop path writes
nothing, so a reconnect resumes from exactly the flag state the processed
messages left; the webapp instead resets all four flags to false on
disconnect and issues a stop, so its flag state does not survive a
reconnect. -/
theorem C8_disconnect_effect : ∀ (s : SysState) (msgs : List String) (f : Flags),
    serverDrop (msgs.foldl socketMsg s) = msgs.foldl socketMsg s
    ∧ ws_disconnect f = (⟨false, false, false, false⟩, Call.stop) := by
  intro s msgs f
  exact ⟨rfl, rfl⟩

/-- C8 fails as stated: on the webapp, a disconnect with the forward flag
held writes the flags — they are all false afterwards, not the state held
when the connection ended. -/
theorem C8_counterexample :
    (ws_disconnect ⟨true, false, false, false⟩).1 = ⟨false, false, false, false⟩
    ∧ (ws_disconnect ⟨true, false, false, false⟩).1 ≠ ⟨true, false, false, false⟩ := by
  refine ⟨rfl, by decide⟩

/-- C9: the structured command "forward" overwrites any prior flag state to
forward-only (acknowledged with that state), each of the five command words
sets exactly its own flag pattern overriding the prior state, and the
"forward" result coincides with the text protocol's 'w' press followed by
releasing each other key, from any prior state. -/
theorem C9_command_override : ∀ (f : Flags) (s : SysState),
    control_ws_step f
        (Payload.jsonObject (some "command") Option.none Option.none (some "forward"))
      = HandlerResult.reply (Reply.stateAck ⟨true, false, false, false⟩)
          ⟨true, false, false, false⟩ (some Call.forward)
    ∧ cmdUpdate f "forward" = ⟨true, false, false, false⟩
    ∧ cmdUpdate f "backward" = ⟨false, true, false, false⟩
    ∧ cmdUpdate f "left" = ⟨false, false, true, false⟩
    ∧ cmdUpdate f "right" = ⟨false, false, false, true⟩
    ∧ cmdUpdate f "stop" = ⟨false, false, false, false⟩
    ∧ (socketMsg (socketMsg (socketMsg (socketMsg s "'w' press") "'s' release")
          "'a' release") "'d' release").flags = ⟨true, false, false, false⟩ := by
  intro f s
  refine ⟨rfl, rfl, rfl, rfl, rfl, rfl, rfl⟩

/-- C10: `apply_state` resolves conflicts by straight-motion priority with no
previous-command dependence: forward exactly when forward is held and
backward is not, backward symmetrically, a turn only when both straight
flags are off and the opposite turn is off, and stop in every remaining case
— in particular whenever forward and backward are held together, and
whenever only the two turn flags are held together. -/
theorem C10_apply_state_priority : ∀ (s : Flags),
    (apply_state s = Call.forward ↔ s.forward = true ∧ s.backward = false)
    ∧ (apply_state s = Call.backward ↔ s.backward = true ∧ s.forward = false)
    ∧ (apply_state s = Call.left
        ↔ s.left = true ∧ s.right = false ∧ s.forward = false ∧ s.backward = false)
    ∧ (apply_state s = Call.right
        ↔ s.right = true ∧ s.left = false ∧ s.forward = false ∧ s.backward = false)
    ∧ (apply_state s = Call.stop
        ↔ (s.forward = true ∧ s.backward = true)
          ∨ (s.forward = false ∧ s.backward = false ∧ s.left = s.right)) := by
  decide

end SocketRobot
